import Mathlib

/-!
Shallow embedding of the `ai-agenttools` tool-plugin repository.

Each Python tool function is a direct wrapper around one library call:
it validates a few scalar arguments, performs the call, serialises the
result to a plain string or a JSON object, and maps every exception to an
error payload.  The embedding makes the external world explicit:

* the outcome of a wrapped library call that can raise is a parameter of
  type `Except String _` whose `.error e` case carries `str(err)`;
* the file system is an association list from paths to file contents,
  and a write is a total update of that list;
* JSON objects are association lists from keys to a small JSON value
  type (`JVal`), mirroring the dictionaries passed to `json.dumps`;
* a tool result (`ToolRet`) is either a plain string or a JSON object,
  matching the two serialisation styles used across the repository.

Python `os.path.abspath` is abstracted as the identity on paths (no claim
depends on path resolution), and text decoding with `errors="replace"` is
absorbed into modelling file contents as already-decoded strings.
-/

set_option autoImplicit false
set_option linter.unusedVariables false

namespace AgentTools

/-- A single quote character, used to rebuild Python f-string messages. -/
def sq : String := String.singleton (Char.ofNat 39)

/-- JSON values appearing in the tool outputs: strings, integers, floats
(carried by their serialised form), arrays of strings, and null. -/
inductive JVal where
  | s (v : String)
  | i (v : Int)
  | fnum (v : String)
  | sarr (vs : List String)
  | null
  deriving Repr, DecidableEq

/-- A JSON object, as handed to `json.dumps`: keys in insertion order. -/
abbrev JObj := List (String × JVal)

/-- Result of a tool function: a plain string or a JSON-encoded object. -/
inductive ToolRet where
  | plain (s : String)
  | json (o : JObj)
  deriving Repr, DecidableEq

/-- Look a key up in a JSON object (first occurrence). -/
def jLookup (o : JObj) (k : String) : Option JVal :=
  (o.find? (fun kv => kv.1 == k)).map (fun kv => kv.2)

/-- Look a key up in a tool result; `none` on plain strings. -/
def retLookup (r : ToolRet) (k : String) : Option JVal :=
  match r with
  | .plain _ => none
  | .json o => jLookup o k

/-- The file system: paths mapped to file contents of type `α`. -/
abbrev FS (α : Type) := List (String × α)

/-- Read the file at `p`, if present. -/
def fsGet {α : Type} (fs : FS α) (p : String) : Option α :=
  (fs.find? (fun kv => kv.1 == p)).map (fun kv => kv.2)

/-- Write (create or overwrite) the file at `p`. -/
def fsSet {α : Type} (fs : FS α) (p : String) (a : α) : FS α :=
  (p, a) :: fs.filter (fun kv => kv.1 != p)

theorem fsGet_fsSet_self {α : Type} (fs : FS α) (p : String) (a : α) :
    fsGet (fsSet fs p a) p = some a := by
  simp [fsGet, fsSet, List.find?]

/-- `os.path.abspath`, abstracted: path resolution against the process
working directory is not modelled, so paths are taken as already absolute. -/
def abspath (p : String) : String := p

/-- Does the character list `needle` occur (contiguously) in `hay`?
This is the embedding of the Python substring test `needle in hay`. -/
def occursIn (needle : List Char) : List Char → Bool
  | [] => needle.isEmpty
  | c :: rest => needle.isPrefixOf (c :: rest) || occursIn needle rest

/-- Python `needle in hay` on strings. -/
def strContains (hay needle : String) : Bool :=
  occursIn needle.data hay.data

/-- Python `str.strip()`: drop leading and trailing whitespace. -/
def pyStrip (s : String) : String :=
  String.mk (((s.data.dropWhile Char.isWhitespace).reverse.dropWhile
    Char.isWhitespace).reverse)

/-- Python `str.lower()`, restricted to the ASCII lowering relevant to the
ASCII deny patterns. -/
def pyLower (s : String) : String :=
  String.mk (s.data.map Char.toLower)

end AgentTools

namespace AgentTools.Shell

/-- Outcome of a completed `subprocess.run` invocation. -/
structure ProcResult where
  returncode : Int
  stdout : String
  stderr : String
  deriving Repr, DecidableEq

/-- The deny list of `run_shell`, verbatim from the source. -/
def deny_patterns : List String :=
  ["remove-item -recurse", "rm -rf", "rd /s"]

/-- The deny-list test of `run_shell`: does the stripped, lower-cased
command (`(command or "").strip().lower()`) contain any deny pattern? -/
def denyMatch (command : String) : Bool :=
  deny_patterns.any (fun p => strContains (pyLower (pyStrip command)) p)

/-- The blocked-command payload returned by `run_shell`. -/
def blockedJson (command : String) : ToolRet :=
  .json [("error", .s "Command blocked by safety policy"),
         ("command", .s command),
         ("reason", .s "matches disallowed destructive pattern")]

/-- `ShellTool.run_shell`.  `subproc` is the outcome of the
`subprocess.run(["bash", "-c", command], ..., timeout=timeout_sec, cwd=cwd)`
call: `.ok` carries the completed process, `.error` carries `str(e)` of the
raised exception (e.g. `TimeoutExpired`).  `timeout_sec` only feeds that
call, so it does not appear on the right-hand side beyond `subproc`. -/
def run_shell_core (command : String) (timeout_sec : Int) (cwd : Option String)
    (subproc : Except String ProcResult) : ToolRet :=
  if denyMatch command then
    blockedJson command
  else
    match subproc with
    | .ok proc =>
        .json [("exit_code", .i proc.returncode),
               ("stdout", .s proc.stdout),
               ("stderr", .s proc.stderr),
               ("cwd", .s (cwd.getD ""))]
    | .error e => .json [("error", .s e)]

end AgentTools.Shell

namespace AgentTools

/-- `ShellTool` holds no instance attributes: its `__init__` is absent and
no method assigns to `self`. -/
structure ShellTool where
  deriving Repr, DecidableEq

/-- The `run_shell` method: the class instance is threaded through and
returned unchanged, since the Python method never mutates `self`. -/
def ShellTool.run_shell (self : ShellTool) (command : String) (timeout_sec : Int)
    (cwd : Option String) (subproc : Except String Shell.ProcResult) :
    ToolRet × ShellTool :=
  (Shell.run_shell_core command timeout_sec cwd subproc, self)

end AgentTools

namespace AgentTools.FileIOTools

/-- `str(FileNotFoundError)` as raised by CPython `open` on a missing path. -/
def fnfMsg (path : String) : String :=
  "[Errno 2] No such file or directory: " ++ sq ++ path ++ sq

/-- Python `f.read(size)` in text mode: all characters when `size` is
negative, at most `size` characters otherwise. -/
def pyRead (content : String) (size : Int) : String :=
  if size < 0 then content else String.mk (content.data.take size.toNat)

/-- `FileIOTools.read_file`.  The file system maps paths to decoded text
(UTF-8 with `errors="replace"` applied); an absent path is the
`FileNotFoundError` case of the `try` block. -/
def read_file (fs : FS String) (path : String) (max_bytes : Int) :
    ToolRet × FS String :=
  match fsGet fs path with
  | none =>
      (.json [("error", .s (fnfMsg path)), ("path", .s path)], fs)
  | some content =>
      (.json [("status", .s "ok"),
              ("content", .s (pyRead content max_bytes)),
              ("path", .s (abspath path))], fs)

/-- `FileIOTools.write_file`.  `io` is the outcome of
`os.makedirs` plus `open(path, "w")` plus the write: `.error e` carries
`str(e)` of any raised exception, in which case the file system is
unchanged. -/
def write_file (fs : FS String) (path content : String)
    (io : Except String Unit) : ToolRet × FS String :=
  match io with
  | .error e => (.json [("error", .s e), ("path", .s path)], fs)
  | .ok _ =>
      (.json [("status", .s "ok"), ("path", .s (abspath path))],
       fsSet fs path content)

end AgentTools.FileIOTools

namespace AgentTools.CSV

/-- A parsed CSV data frame: header and rows.  Cell values are modelled by
their textual form; pandas dtype inference is abstracted away, so
`astype(str)` is the identity in this model. -/
structure Csv where
  columns : List String
  rows : List (List String)
  deriving Repr, DecidableEq

/-- The cell of `row` under `column`, following the header order. -/
def rowCell (cols : List String) (row : List String) (column : String) :
    Option String :=
  (cols.indexOf? column).bind (fun i => row.get? i)

/-- `f"Error: Column \x7bcolumn\x7d not found in CSV"` with the quotes of
the original f-string. -/
def colNotFoundMsg (column : String) : String :=
  "Error: Column " ++ sq ++ column ++ sq ++ " not found in CSV"

/-- The not-installed guard message shared by every `CSVTools` function. -/
def pandasMsg : String := "Error: pandas is not installed"

/-- `pandas.DataFrame.head`: first `n` rows, or all but the last `-n`
rows when `n` is negative. -/
def pyHead (rows : List (List String)) (n : Int) : List (List String) :=
  if 0 ≤ n then rows.take n.toNat else rows.take (rows.length - n.natAbs)

/-- Rendering of `df.head(max_rows).to_string()`.  The pandas column
alignment is abstracted to a plain comma-separated dump; no claim depends
on the exact layout. -/
def dfHeadStr (df : Csv) (max_rows : Int) : String :=
  String.intercalate "\n"
    (String.intercalate ", " df.columns ::
      (pyHead df.rows max_rows).map (String.intercalate ", "))

/-- `CSVTools.read_csv`.  `res` is the outcome of `pd.read_csv(file_path)`;
`.error e` carries `str(err)`. -/
def read_csv (pandas : Bool) (res : Except String Csv) (max_rows : Int) :
    ToolRet :=
  if pandas = false then .plain pandasMsg
  else
    match res with
    | .error e => .plain ("Error reading CSV: " ++ e)
    | .ok df => .plain (dfHeadStr df max_rows)

/-- Ordering used to model `df.sort_values` on a string-typed column;
absent cells sort first, mirroring no claim (sorting details are outside
every claim, only the guard branch matters). -/
def charListLe : List Char → List Char → Bool
  | [], _ => true
  | _ :: _, [] => false
  | a :: as, b :: bs =>
      if a = b then charListLe as bs else decide (a.toNat < b.toNat)

/-- Comparison on optional cell values for `sort_values`. -/
def cellLe (a b : Option String) : Bool :=
  match a, b with
  | none, _ => true
  | some _, none => false
  | some x, some y => charListLe x.data y.data

/-- Insertion into a sorted list. -/
def insertLe {α : Type} (le : α → α → Bool) (a : α) : List α → List α
  | [] => [a]
  | b :: bs => if le a b then a :: b :: bs else b :: insertLe le a bs

/-- Insertion sort (stability and comparator orientation of the pandas
sort are abstracted; no claim depends on them). -/
def sortLe {α : Type} (le : α → α → Bool) : List α → List α
  | [] => []
  | a :: as => insertLe le a (sortLe le as)

/-- `df.sort_values(by=column, ascending=ascending)` on the row list. -/
def sortRows (cols : List String) (column : String) (ascending : Bool)
    (rows : List (List String)) : List (List String) :=
  let le := fun r1 r2 => cellLe (rowCell cols r1 column) (rowCell cols r2 column)
  if ascending then sortLe le rows else sortLe (fun a b => le b a) rows

/-- `CSVTools.filter_csv`.  `res` is the `pd.read_csv(file_path)` outcome;
`wr` is the outcome of `filtered_df.to_csv(output_path, index=False)`. -/
def filter_csv (pandas : Bool) (res : Except String Csv)
    (column value output_path : String) (fs : FS Csv)
    (wr : Except String Unit) : ToolRet × FS Csv :=
  if pandas = false then (.plain pandasMsg, fs)
  else
    match res with
    | .error e => (.plain ("Error filtering CSV: " ++ e), fs)
    | .ok df =>
        if df.columns.contains column = false then
          (.plain (colNotFoundMsg column), fs)
        else
          let filtered : Csv :=
            ⟨df.columns,
             df.rows.filter (fun r => rowCell df.columns r column == some value)⟩
          match wr with
          | .error e => (.plain ("Error filtering CSV: " ++ e), fs)
          | .ok _ =>
              (.plain ("Filtered " ++ toString filtered.rows.length ++
                        " rows to: " ++ output_path),
               fsSet fs output_path filtered)

/-- `CSVTools.sort_csv`.  Same channels as `filter_csv`. -/
def sort_csv (pandas : Bool) (res : Except String Csv)
    (column output_path : String) (ascending : Bool) (fs : FS Csv)
    (wr : Except String Unit) : ToolRet × FS Csv :=
  if pandas = false then (.plain pandasMsg, fs)
  else
    match res with
    | .error e => (.plain ("Error sorting CSV: " ++ e), fs)
    | .ok df =>
        if df.columns.contains column = false then
          (.plain (colNotFoundMsg column), fs)
        else
          let sorted : Csv :=
            ⟨df.columns, sortRows df.columns column ascending df.rows⟩
          match wr with
          | .error e => (.plain ("Error sorting CSV: " ++ e), fs)
          | .ok _ =>
              (.plain ("CSV sorted by " ++ sq ++ column ++ sq ++
                        " and saved to: " ++ output_path),
               fsSet fs output_path sorted)

end AgentTools.CSV

namespace AgentTools

/-- `CSVTools` holds no instance attributes: its `__init__` only prints a
warning when pandas is missing and assigns nothing to `self`. -/
structure CSVTools where
  deriving Repr, DecidableEq

/-- The `read_csv` method, threading the (empty) instance state. -/
def CSVTools.read_csv (self : CSVTools) (pandas : Bool)
    (res : Except String CSV.Csv) (max_rows : Int) : ToolRet × CSVTools :=
  (CSV.read_csv pandas res max_rows, self)

/-- The `filter_csv` method, threading the (empty) instance state. -/
def CSVTools.filter_csv (self : CSVTools) (pandas : Bool)
    (res : Except String CSV.Csv) (column value output_path : String)
    (fs : FS CSV.Csv) (wr : Except String Unit) :
    (ToolRet × FS CSV.Csv) × CSVTools :=
  (CSV.filter_csv pandas res column value output_path fs wr, self)

end AgentTools

namespace AgentTools.PDF

/-- `str(FileNotFoundError)` raised by `PdfReader` on a missing path. -/
def fnfMsg (path : String) : String :=
  "[Errno 2] No such file or directory: " ++ sq ++ path ++ sq

/-- `PDFTools.create_pdf`.  The drawn PDF is modelled by its list of text
lines (`text.split("\n")`); reportlab page layout is abstracted away, no
claim depends on it.  `io` is the outcome of the canvas construction,
drawing and `c.save()`. -/
def create_pdf (reportlab : Bool) (fs : FS (List String))
    (file_path text : String) (io : Except String Unit) :
    ToolRet × FS (List String) :=
  if reportlab = false then (.plain "Error: reportlab is not installed", fs)
  else
    match io with
    | .error e => (.plain ("Error creating PDF: " ++ e), fs)
    | .ok _ =>
        (.plain ("PDF created successfully at: " ++ file_path),
         fsSet fs file_path (text.splitOn "\n"))

/-- `PDFTools.extract_pdf_page` over a file system of PDFs, each a list of
pages of an arbitrary page type `P`.  A missing `file_path` is the
`FileNotFoundError` of `PdfReader`; `wr` is the outcome of
`open(output_path, "wb")` plus `writer.write`. -/
def extract_pdf_page {P : Type} (pypdf2 : Bool) (fs : FS (List P))
    (file_path : String) (page_number : Int) (output_path : String)
    (wr : Except String Unit) : ToolRet × FS (List P) :=
  if pypdf2 = false then (.plain "Error: PyPDF2 is not installed", fs)
  else
    match fsGet fs file_path with
    | none => (.plain ("Error extracting page: " ++ fnfMsg file_path), fs)
    | some pages =>
        if page_number < 1 || (pages.length : Int) < page_number then
          (.plain ("Error: Page number " ++ toString page_number ++
                    " out of range (1-" ++ toString pages.length ++ ")"), fs)
        else
          match pages.get? (page_number - 1).toNat with
          | none =>
              (.plain "Error extracting page: list index out of range", fs)
          | some pg =>
              match wr with
              | .error e => (.plain ("Error extracting page: " ++ e), fs)
              | .ok _ =>
                  (.plain ("Page " ++ toString page_number ++
                            " extracted successfully to: " ++ output_path),
                   fsSet fs output_path [pg])

end AgentTools.PDF

namespace AgentTools.Word

/-- Resolve a Python list index of a sequence of length `len`:
a non-negative index must be below `len`, a negative index counts from the
end and must not exceed `len` in magnitude; otherwise `IndexError`. -/
def pyIdx (len : Nat) (i : Int) : Option Nat :=
  if 0 ≤ i then
    if i < (len : Int) then some i.toNat else none
  else
    if i.natAbs ≤ len then some (len - i.natAbs) else none

/-- Python `l[i]`, returning the resolved position together with the
element, or `none` for `IndexError`. -/
def pyIndex {α : Type} (l : List α) (i : Int) : Option (Nat × α) :=
  match pyIdx l.length i with
  | none => none
  | some k => (l.get? k).map (fun a => (k, a))

theorem pyIndex_eq {α : Type} {l : List α} {i : Int} {k : Nat} {a : α}
    (h : pyIndex l i = some (k, a)) :
    pyIdx l.length i = some k ∧ l.get? k = some a := by
  unfold pyIndex at h
  cases hk : pyIdx l.length i with
  | none => rw [hk] at h; exact absurd h (by simp)
  | some m =>
      rw [hk] at h
      simp only [Option.map_eq_some'] at h
      obtain ⟨b, hb, heq⟩ := h
      obtain ⟨h1, h2⟩ := Prod.mk.injEq m b k a ▸ heq
      subst h1; subst h2
      exact ⟨rfl, hb⟩

theorem pyIdx_some_lt {len : Nat} {i : Int} {k : Nat}
    (h : pyIdx len i = some k) : i < (len : Int) := by
  by_cases h0 : 0 ≤ i
  · by_cases hlt : i < (len : Int)
    · exact hlt
    · simp [pyIdx, h0, hlt] at h
  · have : i < 0 := lt_of_not_le h0
    exact lt_of_lt_of_le this (Int.ofNat_nonneg len)

theorem pyIdx_neg {len : Nat} {i : Int} (hneg : i < 0)
    (hmag : i.natAbs ≤ len) : pyIdx len i = some (len - i.natAbs) := by
  have h0 : ¬ 0 ≤ i := not_le_of_lt hneg
  simp [pyIdx, h0, hmag]

/-- A table of a Word document: a declared column count (`len(table.columns)`)
and the grid of cell texts (`table.rows[r].cells[c]`). -/
structure WTable where
  ncols : Nat
  grid : List (List String)
  deriving Repr, DecidableEq

/-- A Word document, reduced to its table list; paragraphs play no role in
the embedded operation. -/
abbrev WordDoc := List WTable

/-- `str(docx.opc.exceptions.PackageNotFoundError)` on a missing path. -/
def pkgNotFoundMsg (path : String) : String :=
  "Package not found at " ++ sq ++ path ++ sq

/-- `str(IndexError)` from a list subscript — `doc.tables` and
`table.rows` index lists in python-docx — wrapped by the broad handler of
`set_table_cell`. -/
def indexErrorMsg : String := "Error setting table cell: list index out of range"

/-- `str(IndexError)` from the column subscript: `row.cells` is a tuple in
python-docx, so its `IndexError` reads `tuple index out of range`. -/
def tupleIndexErrorMsg : String :=
  "Error setting table cell: tuple index out of range"

/-- `WordTools.set_table_cell`.  The explicit validation only tests the
upper bounds (`table_index >= len(doc.tables)`,
`row >= len(table.rows) or col >= len(table.columns)`); the subsequent
subscripts use Python semantics (`pyIndex`), so negative indices count
from the end and an out-of-magnitude negative index raises `IndexError`,
caught by the broad handler — with the list message for the table and row
subscripts and the tuple message for the column subscript. -/
def set_table_cell (docx : Bool) (fs : FS WordDoc) (file_path : String)
    (table_index row col : Int) (text : String) : ToolRet × FS WordDoc :=
  if docx = false then (.plain "Error: python-docx is not installed", fs)
  else
    match fsGet fs file_path with
    | none =>
        (.plain ("Error setting table cell: " ++ pkgNotFoundMsg file_path), fs)
    | some doc =>
        if (doc.length : Int) ≤ table_index then
          (.plain ("Error: Table index " ++ toString table_index ++
                    " out of range"), fs)
        else
          match pyIndex doc table_index with
          | none => (.plain indexErrorMsg, fs)
          | some (ti, table) =>
              if (table.grid.length : Int) ≤ row ∨ (table.ncols : Int) ≤ col then
                (.plain ("Error: Cell position (" ++ toString row ++ ", " ++
                          toString col ++ ") out of range"), fs)
              else
                match pyIndex table.grid row with
                | none => (.plain indexErrorMsg, fs)
                | some (ri, cells) =>
                    match pyIdx cells.length col with
                    | none => (.plain tupleIndexErrorMsg, fs)
                    | some ci =>
                        let newDoc :=
                          doc.set ti
                            { table with grid := table.grid.set ri (cells.set ci text) }
                        (.plain ("Cell (" ++ toString row ++ ", " ++ toString col ++
                                  ") updated successfully in table " ++
                                  toString table_index),
                         fsSet fs file_path newDoc)

end AgentTools.Word

namespace AgentTools.Web

/-- `WebTools.fetch_webpage`.  `res` is the outcome of
`requests.get(url, timeout=10)` followed by `raise_for_status()`:
`.ok` carries `response.text`, `.error` carries `str(err)`. -/
def fetch_webpage (requestsAvail : Bool) (res : Except String String)
    (url : String) : ToolRet :=
  if requestsAvail = false then .plain "Error: requests is not installed"
  else
    match res with
    | .ok body => .plain body
    | .error e => .plain ("Error fetching webpage: " ++ e)

end AgentTools.Web

namespace AgentTools.Excel

/-- A cell value after `write_cell`'s numeric conversion: the original
string, a Python `int`, or a Python `float`.  Floats are kept abstract in
the type parameter `F`; the embedding never computes with them. -/
inductive XVal (F : Type) where
  | s (v : String)
  | i (v : Int)
  | f (v : F)
  deriving DecidableEq

/-- A worksheet: title plus the cells written so far (an unwritten cell
reads back as `None`). -/
structure Sheet (F : Type) where
  title : String
  cells : List (String × XVal F)
  deriving DecidableEq

/-- A workbook: its worksheets in order; `wb.active` is the first sheet. -/
structure Workbook (F : Type) where
  sheets : List (Sheet F)
  deriving DecidableEq

/-- `openpyxl.Workbook()`: one empty sheet titled `Sheet`. -/
def newWorkbook (F : Type) : Workbook F := ⟨[⟨"Sheet", []⟩]⟩

/-- Find the sheet with the given title (`title in wb.sheetnames` /
`wb[title]`). -/
def findSheet {F : Type} (title : String) : List (Sheet F) → Option (Sheet F)
  | [] => none
  | sh :: t => if sh.title == title then some sh else findSheet title t

/-- `wb[title]` after a successful membership test. -/
def Workbook.getSheet {F : Type} (wb : Workbook F) (title : String) :
    Option (Sheet F) :=
  findSheet title wb.sheets

/-- `wb.create_sheet(title=sn)`: append an empty sheet. -/
def Workbook.createSheet {F : Type} (wb : Workbook F) (sn : String) :
    Workbook F :=
  ⟨wb.sheets ++ [⟨sn, []⟩]⟩

/-- `ws[cell].value`: the last written value of the cell, or `none`. -/
def Sheet.getCell {F : Type} (sh : Sheet F) (cell : String) : Option (XVal F) :=
  (sh.cells.find? (fun kv => kv.1 == cell)).map (fun kv => kv.2)

/-- `ws[cell] = v`. -/
def Sheet.setCell {F : Type} (sh : Sheet F) (cell : String) (v : XVal F) :
    Sheet F :=
  { sh with cells := (cell, v) :: sh.cells.filter (fun kv => kv.1 != cell) }

/-- Write `v` into `cell` of every sheet titled `title` (titles are unique
in openpyxl, so at most one sheet is touched). -/
def setCellIn {F : Type} (title cell : String) (v : XVal F) :
    List (Sheet F) → List (Sheet F)
  | [] => []
  | sh :: t =>
      (if sh.title == title then sh.setCell cell v else sh) ::
        setCellIn title cell v t

/-- Write `v` into `cell` of the sheet titled `title`. -/
def Workbook.setCell {F : Type} (wb : Workbook F) (title cell : String)
    (v : XVal F) : Workbook F :=
  ⟨setCellIn title cell v wb.sheets⟩

/-- `wb.active` for the selection in `write_cell`/`read_cell`; loaded and
fresh workbooks always have at least one sheet, so the fallback sheet is
unreachable. -/
def Workbook.active {F : Type} (wb : Workbook F) : Sheet F :=
  wb.sheets.headD ⟨"Sheet", []⟩

/-- The numeric conversion block of `write_cell`:
`float(value)` when the string contains a dot, `int(value)` otherwise, the
original string kept when the conversion raises.  The Python parsers are
parameters (`pf` for `float`, `pi` for `int`), returning `none` exactly on
`ValueError`. -/
def pyNumConvert {F : Type} (pf : String → Option F) (pi : String → Option Int)
    (value : String) : XVal F :=
  if value.data.contains (Char.ofNat 46) then
    match pf value with
    | some x => .f x
    | none => .s value
  else
    match pi value with
    | some n => .i n
    | none => .s value

/-- Python `str(value)` after the conversion; `pfs` is `str` on floats. -/
def XVal.pyStr {F : Type} (pfs : F → String) : XVal F → String
  | .s v => v
  | .i n => toString n
  | .f x => pfs x

/-- The JSON encoding of a raw cell value in `read_cell`'s output. -/
def cellJson {F : Type} (pfs : F → String) : Option (XVal F) → JVal
  | none => .null
  | some (.s v) => .s v
  | some (.i n) => .i n
  | some (.f x) => .fnum (pfs x)

/-- The `_check_openpyxl` error payload. -/
def openpyxlMsg : String := "openpyxl is not installed. Run: pip install openpyxl"

/-- `str(FileNotFoundError)` raised by `load_workbook` on a missing path. -/
def fnfMsg (path : String) : String :=
  "[Errno 2] No such file or directory: " ++ sq ++ path ++ sq

/-- `f"Sheet \x7bsheet_name\x7d not found"` with the original quotes. -/
def sheetNotFoundMsg (sn : String) : String :=
  "Sheet " ++ sq ++ sn ++ sq ++ " not found"

/-- `ExcelTools.write_cell`.  A missing path means `openpyxl.Workbook()`
is used instead of `load_workbook`; a named sheet is created when absent;
the value is numerically converted and stored; `io` is the outcome of the
surrounding file operations (`load_workbook` on a corrupt file,
`wb.save`), whose failure leaves the file system unchanged. -/
def write_cell {F : Type} (pf : String → Option F) (pi : String → Option Int)
    (pfs : F → String) (openpyxl : Bool) (io : Except String Unit)
    (fs : FS (Workbook F)) (path cell value : String)
    (sheet_name : Option String) : ToolRet × FS (Workbook F) :=
  if openpyxl = false then (.json [("error", .s openpyxlMsg)], fs)
  else
    match io with
    | .error e => (.json [("error", .s e), ("path", .s path)], fs)
    | .ok _ =>
        let wb := (fsGet fs path).getD (newWorkbook F)
        let wb1 :=
          match sheet_name with
          | some sn =>
              match wb.getSheet sn with
              | some _ => wb
              | none => wb.createSheet sn
          | none => wb
        let target :=
          match sheet_name with
          | some sn => sn
          | none => wb1.active.title
        let v := pyNumConvert pf pi value
        let wb2 := wb1.setCell target cell v
        (.json [("status", .s "ok"),
                ("path", .s (abspath path)),
                ("sheet", .s target),
                ("cell", .s cell),
                ("value", .s (v.pyStr pfs))],
         fsSet fs path wb2)

/-- `ExcelTools.read_cell`.  A missing path is the `FileNotFoundError` of
`load_workbook`; a named sheet must exist; the raw cell value is placed in
the JSON output. -/
def read_cell {F : Type} (pfs : F → String) (openpyxl : Bool)
    (fs : FS (Workbook F)) (path cell : String) (sheet_name : Option String) :
    ToolRet × FS (Workbook F) :=
  if openpyxl = false then (.json [("error", .s openpyxlMsg)], fs)
  else
    match fsGet fs path with
    | none => (.json [("error", .s (fnfMsg path)), ("path", .s path)], fs)
    | some wb =>
        let ws? : Option (Sheet F) :=
          match sheet_name with
          | some sn => wb.getSheet sn
          | none => some wb.active
        match ws? with
        | none =>
            (.json [("error", .s (sheetNotFoundMsg (sheet_name.getD ""))),
                    ("available_sheets", .sarr (wb.sheets.map (fun sh => sh.title)))],
             fs)
        | some ws =>
            (.json [("status", .s "ok"),
                    ("path", .s (abspath path)),
                    ("sheet", .s ws.title),
                    ("cell", .s cell),
                    ("value", cellJson pfs (ws.getCell cell))],
             fs)

theorem getCell_setCell {F : Type} (sh : Sheet F) (cell : String) (v : XVal F) :
    (sh.setCell cell v).getCell cell = some v := by
  simp [Sheet.getCell, Sheet.setCell, List.find?]

theorem title_setCell {F : Type} (sh : Sheet F) (cell : String) (v : XVal F) :
    (sh.setCell cell v).title = sh.title := rfl

theorem findSheet_setCellIn {F : Type} (l : List (Sheet F))
    (title cell : String) (v : XVal F) :
    findSheet title (setCellIn title cell v l) =
      (findSheet title l).map (fun sh => sh.setCell cell v) := by
  induction l with
  | nil => rfl
  | cons sh t ih =>
      simp only [setCellIn, findSheet]
      by_cases hb : (sh.title == title) = true
      · simp [Sheet.setCell, hb]
      · simp [hb, ih]

theorem getSheet_setCell {F : Type} (wb : Workbook F) (title cell : String)
    (v : XVal F) :
    (wb.setCell title cell v).getSheet title =
      (wb.getSheet title).map (fun sh => sh.setCell cell v) :=
  findSheet_setCellIn wb.sheets title cell v

theorem findSheet_append_self {F : Type} (l : List (Sheet F)) (sn : String)
    (h : findSheet sn l = none) :
    findSheet sn (l ++ [⟨sn, []⟩]) = some ⟨sn, []⟩ := by
  induction l with
  | nil => simp [findSheet]
  | cons sh t ih =>
      simp only [findSheet, List.cons_append] at h ⊢
      by_cases hb : (sh.title == sn) = true
      · simp [hb] at h
      · simp only [if_neg hb] at h ⊢
        exact ih h

theorem getSheet_createSheet {F : Type} (wb : Workbook F) (sn : String)
    (h : wb.getSheet sn = none) :
    (wb.createSheet sn).getSheet sn = some ⟨sn, []⟩ :=
  findSheet_append_self wb.sheets sn h

/-- The value stored at `cell` of sheet `sn` of the workbook at `path`. -/
def cellAt {F : Type} (fs : FS (Workbook F)) (path sn cell : String) :
    Option (XVal F) :=
  (fsGet fs path).bind (fun wb =>
    (wb.getSheet sn).bind (fun sh => sh.getCell cell))

theorem write_cell_result {F : Type} (pf : String → Option F)
    (pi : String → Option Int) (pfs : F → String) (fs : FS (Workbook F))
    (path cell value sn : String) :
    (write_cell pf pi pfs true (.ok ()) fs path cell value (some sn)).1 =
      .json [("status", .s "ok"), ("path", .s (abspath path)),
             ("sheet", .s sn), ("cell", .s cell),
             ("value", .s ((pyNumConvert pf pi value).pyStr pfs))] := rfl

theorem write_cell_stores {F : Type} (pf : String → Option F)
    (pi : String → Option Int) (pfs : F → String) (fs : FS (Workbook F))
    (path cell value sn : String) :
    cellAt (write_cell pf pi pfs true (.ok ()) fs path cell value (some sn)).2
        path sn cell = some (pyNumConvert pf pi value) := by
  unfold write_cell cellAt
  cases hs : Workbook.getSheet ((fsGet fs path).getD (newWorkbook F)) sn with
  | some sh =>
      simp [hs, fsGet_fsSet_self, getSheet_setCell, getCell_setCell]
  | none =>
      simp [hs, fsGet_fsSet_self, getSheet_setCell,
        getSheet_createSheet _ _ hs, getCell_setCell]

theorem read_after_write {F : Type} (pf : String → Option F)
    (pi : String → Option Int) (pfs : F → String) (fs : FS (Workbook F))
    (path cell value sn : String) :
    retLookup (read_cell pfs true
        (write_cell pf pi pfs true (.ok ()) fs path cell value (some sn)).2
        path cell (some sn)).1 "value" =
      some (cellJson pfs (some (pyNumConvert pf pi value))) := by
  unfold read_cell
  cases hs : Workbook.getSheet ((fsGet fs path).getD (newWorkbook F)) sn with
  | some sh =>
      unfold write_cell
      simp [hs, fsGet_fsSet_self, getSheet_setCell, getCell_setCell,
        retLookup, jLookup, List.find?]
  | none =>
      unfold write_cell
      simp [hs, fsGet_fsSet_self, getSheet_setCell,
        getSheet_createSheet _ _ hs, getCell_setCell, retLookup, jLookup,
        List.find?]

end AgentTools.Excel

namespace AgentTools

/-- The numeric value of an ASCII digit. -/
def digitVal (c : Char) : Option Nat :=
  if c.toNat < 48 ∨ 57 < c.toNat then none else some (c.toNat - 48)

/-- Accumulate a decimal number over a digit list. -/
def parseNatAux : List Char → Nat → Option Nat
  | [], acc => some acc
  | c :: cs, acc =>
      match digitVal c with
      | none => none
      | some d => parseNatAux cs (acc * 10 + d)

/-- A concrete instance of the Python `int(...)` parser used to
instantiate witnesses and counterexamples: an optional minus sign followed
by at least one decimal digit (the surrounding-whitespace and underscore
liberality of CPython plays no role at the chosen inputs, where both
parsers agree). -/
def pyIntSimple (s : String) : Option Int :=
  match s.data with
  | [] => none
  | c :: cs =>
      if c = Char.ofNat 45 then
        match cs with
        | [] => none
        | _ :: _ => (parseNatAux cs 0).map (fun n => -(n : Int))
      else (parseNatAux (c :: cs) 0).map (fun n => (n : Int))

/-! ## Claim theorems -/

/-- C2, counterexample to the claim as stated: `"sleep 60"` matches no deny
pattern, so the subprocess is invoked, but when that invocation raises
(here `subprocess.TimeoutExpired`, reachable with `timeout_sec = 1`),
`run_shell` returns the `error` payload of the broad handler, which has no
`exit_code`, `stdout`, `stderr` or `cwd` key. -/
theorem C2_cex_timeout :
    Shell.denyMatch "sleep 60" = false ∧
      retLookup (Shell.run_shell_core "sleep 60" 1 none
        (.error "Command timed out after 1 seconds")) "exit_code" = none := by
  constructor
  · decide
  · decide

/-- C2, amended: a command whose stripped, lower-cased form contains a
deny-list substring yields the blocked payload (with
`error = "Command blocked by safety policy"`) and the result is
independent of the subprocess outcome — the subprocess is never consulted.
A command not matching the deny list reaches the subprocess: when the
invocation completes, the result is the JSON object with exactly the keys
`exit_code`, `stdout`, `stderr` and `cwd`; when it raises (e.g. a
timeout), the broad handler returns a JSON object with an `error` key
instead. -/
theorem C2_deny_list (command : String) (timeout_sec : Int)
    (cwd : Option String) (sp sp2 : Except String Shell.ProcResult) :
    (Shell.denyMatch command = true →
      Shell.run_shell_core command timeout_sec cwd sp =
        Shell.blockedJson command ∧
      Shell.run_shell_core command timeout_sec cwd sp =
        Shell.run_shell_core command timeout_sec cwd sp2) ∧
    (∀ proc : Shell.ProcResult, Shell.denyMatch command = false →
      sp = .ok proc →
      Shell.run_shell_core command timeout_sec cwd sp =
        .json [("exit_code", .i proc.returncode),
               ("stdout", .s proc.stdout),
               ("stderr", .s proc.stderr),
               ("cwd", .s (cwd.getD ""))]) ∧
    (∀ e : String, Shell.denyMatch command = false → sp = .error e →
      Shell.run_shell_core command timeout_sec cwd sp =
        .json [("error", .s e)]) := by
  refine ⟨fun h => ⟨?_, ?_⟩, fun proc h hsp => ?_, fun e h hsp => ?_⟩
  · simp [Shell.run_shell_core, h]
  · simp [Shell.run_shell_core, h]
  · simp [Shell.run_shell_core, h, hsp]
  · simp [Shell.run_shell_core, h, hsp]

/-- C2 witness: the deny branch fires on `"rm -rf /tmp"` whatever the
subprocess channel holds, and the completed-process branch fires on
`"echo hi"`. -/
theorem C2_deny_list_witness :
    Shell.run_shell_core "rm -rf /tmp" 600 none (.ok ⟨0, "", ""⟩) =
      Shell.blockedJson "rm -rf /tmp" ∧
    Shell.run_shell_core "echo hi" 600 none (.ok ⟨0, "hi\n", ""⟩) =
      .json [("exit_code", .i 0), ("stdout", .s "hi\n"),
             ("stderr", .s ""), ("cwd", .s "")] := by
  constructor
  · exact (C2_deny_list "rm -rf /tmp" 600 none (.ok ⟨0, "", ""⟩)
      (.ok ⟨0, "", ""⟩)).1 (by decide) |>.1
  · exact (C2_deny_list "echo hi" 600 none (.ok ⟨0, "hi\n", ""⟩)
      (.ok ⟨0, "hi\n", ""⟩)).2.1 ⟨0, "hi\n", ""⟩ (by decide) rfl

/-- C4: every embedded tool function is total and returns a serialisable
value on every input and every external outcome.  When the wrapped library
is not installed, each function short-circuits to its specific
not-installed payload before touching the library, leaving the file system
unchanged; and the functions whose branches all end in a payload
(`run_shell`, `read_file`, `write_file`) produce a JSON object on every
path.  Totality itself is by construction: every embedding is a total Lean
function into `ToolRet`. -/
theorem C4_total_returns {P F : Type} (pf : String → Option F)
    (pi : String → Option Int) (pfs : F → String)
    (res : Except String CSV.Csv) (wres : Except String String)
    (io io2 io3 wr wr2 : Except String Unit)
    (sp : Except String Shell.ProcResult)
    (max_rows timeout_sec page_number table_index row col : Int)
    (ascending : Bool)
    (column value output_path file_path text url path cell content command : String)
    (sheet_name : Option String) (cwd : Option String)
    (fscsv : FS CSV.Csv) (fsstr : FS String) (fslines : FS (List String))
    (fspdf : FS (List P)) (fswd : FS Word.WordDoc)
    (fsxl : FS (Excel.Workbook F)) :
    CSV.read_csv false res max_rows = .plain CSV.pandasMsg ∧
    CSV.filter_csv false res column value output_path fscsv wr =
      (.plain CSV.pandasMsg, fscsv) ∧
    CSV.sort_csv false res column output_path ascending fscsv wr =
      (.plain CSV.pandasMsg, fscsv) ∧
    PDF.create_pdf false fslines file_path text io =
      (.plain "Error: reportlab is not installed", fslines) ∧
    PDF.extract_pdf_page false fspdf file_path page_number output_path wr2 =
      (.plain "Error: PyPDF2 is not installed", fspdf) ∧
    Excel.write_cell pf pi pfs false io2 fsxl path cell value sheet_name =
      (.json [("error", .s Excel.openpyxlMsg)], fsxl) ∧
    Excel.read_cell pfs false fsxl path cell sheet_name =
      (.json [("error", .s Excel.openpyxlMsg)], fsxl) ∧
    Word.set_table_cell false fswd file_path table_index row col text =
      (.plain "Error: python-docx is not installed", fswd) ∧
    Web.fetch_webpage false wres url = .plain "Error: requests is not installed" ∧
    (∃ o : JObj, Shell.run_shell_core command timeout_sec cwd sp = .json o) ∧
    (∃ o : JObj, (FileIOTools.read_file fsstr path max_rows).1 = .json o) ∧
    (∃ o : JObj, (FileIOTools.write_file fsstr path content io3).1 = .json o) := by
  refine ⟨rfl, rfl, rfl, rfl, rfl, rfl, rfl, rfl, rfl, ?_, ?_, ?_⟩
  · unfold Shell.run_shell_core
    by_cases h : Shell.denyMatch command = true
    · simp [h, Shell.blockedJson]
    · cases sp <;> simp [h]
  · unfold FileIOTools.read_file
    cases fsGet fsstr path <;> simp
  · unfold FileIOTools.write_file
    cases io3 <;> simp

/-- C7: no tool method mutates the instance it is called on — the class
state spaces are trivial (no `__init__` attribute assignments anywhere),
every method returns its instance unchanged, and a second invocation with
the same arguments and the same external outcomes returns the same result
as the first. -/
theorem C7_stateless (c c2 : CSVTools) (t t2 : ShellTool) (pandas : Bool)
    (res : Except String CSV.Csv) (max_rows timeout_sec : Int)
    (column value output_path command : String) (fs : FS CSV.Csv)
    (wr : Except String Unit) (cwd : Option String)
    (sp : Except String Shell.ProcResult) :
    (c.read_csv pandas res max_rows).2 = c ∧
    ((c.read_csv pandas res max_rows).2.read_csv pandas res max_rows).1 =
      (c.read_csv pandas res max_rows).1 ∧
    (c.filter_csv pandas res column value output_path fs wr).2 = c ∧
    ((c.filter_csv pandas res column value output_path fs wr).2.filter_csv
        pandas res column value output_path fs wr).1 =
      (c.filter_csv pandas res column value output_path fs wr).1 ∧
    (t.run_shell command timeout_sec cwd sp).2 = t ∧
    ((t.run_shell command timeout_sec cwd sp).2.run_shell command timeout_sec
        cwd sp).1 =
      (t.run_shell command timeout_sec cwd sp).1 ∧
    c = c2 ∧ t = t2 :=
  ⟨rfl, rfl, rfl, rfl, rfl, rfl, by cases c; cases c2; rfl,
   by cases t; cases t2; rfl⟩

/-- C10: reading an existing file returns an `ok` JSON object whose
`content` field is the file text truncated to at most `max_bytes`
characters, and leaves the file system unchanged. -/
theorem C10_read_file_truncation (fs : FS String) (path content : String)
    (max_bytes : Int) (h : fsGet fs path = some content)
    (hmb : 0 ≤ max_bytes) :
    FileIOTools.read_file fs path max_bytes =
      (.json [("status", .s "ok"),
              ("content", .s (FileIOTools.pyRead content max_bytes)),
              ("path", .s (abspath path))], fs) ∧
    (FileIOTools.pyRead content max_bytes).length ≤ max_bytes.toNat := by
  constructor
  · simp [FileIOTools.read_file, h]
  · unfold FileIOTools.pyRead
    rw [if_neg (not_lt_of_le hmb)]
    show (String.mk (content.data.take max_bytes.toNat)).length ≤ max_bytes.toNat
    simp only [String.length, List.length_take]
    exact min_le_left _ _

/-- C10 witness at a concrete file system. -/
theorem C10_read_file_truncation_witness :
    FileIOTools.read_file [("notes.txt", "hello world")] "notes.txt" 5 =
      (.json [("status", .s "ok"),
              ("content", .s (FileIOTools.pyRead "hello world" 5)),
              ("path", .s (abspath "notes.txt"))],
       [("notes.txt", "hello world")]) ∧
    (FileIOTools.pyRead "hello world" 5).length ≤ (5 : Int).toNat :=
  C10_read_file_truncation [("notes.txt", "hello world")] "notes.txt"
    "hello world" 5 (by decide) (by decide)

/-- C6: on a readable CSV whose header lacks `column`, both `filter_csv`
and `sort_csv` return the error message naming the missing column and do
not create or modify the output file. -/
theorem C6_missing_column (df : CSV.Csv) (column value output_path : String)
    (ascending : Bool) (fs : FS CSV.Csv) (wr : Except String Unit)
    (h : df.columns.contains column = false) :
    CSV.filter_csv true (.ok df) column value output_path fs wr =
      (.plain (CSV.colNotFoundMsg column), fs) ∧
    CSV.sort_csv true (.ok df) column output_path ascending fs wr =
      (.plain (CSV.colNotFoundMsg column), fs) := by
  have h2 : column ∉ df.columns := by simpa using h
  constructor
  · simp [CSV.filter_csv, h2]
  · simp [CSV.sort_csv, h2]

/-- C6 witness at a concrete data frame lacking column `zzz`. -/
theorem C6_missing_column_witness :
    CSV.filter_csv true (.ok ⟨["name", "age"], [["alice", "30"]]⟩) "zzz" "x"
        "out.csv" [] (.ok ()) =
      (.plain (CSV.colNotFoundMsg "zzz"), []) ∧
    CSV.sort_csv true (.ok ⟨["name", "age"], [["alice", "30"]]⟩) "zzz"
        "out.csv" true [] (.ok ()) =
      (.plain (CSV.colNotFoundMsg "zzz"), []) :=
  C6_missing_column ⟨["name", "age"], [["alice", "30"]]⟩ "zzz" "x" "out.csv"
    true [] (.ok ()) (by decide)

/-- C5, counterexample to the claim as stated: page 1 of a 2-page PDF is
within range, yet when the write to `output_path` raises (e.g. the target
directory does not exist or the disk is full), `extract_pdf_page` returns
the broad handler's error message and writes nothing — the in-range half
of the claim does not hold universally. -/
theorem C5_cex_write_failure :
    (1 ≤ (1 : Int) ∧ (1 : Int) ≤ 2) ∧
    PDF.extract_pdf_page true [("doc.pdf", [0, 1])] "doc.pdf" 1 "out.pdf"
        (.error "[Errno 28] No space left on device") =
      (.plain "Error extracting page: [Errno 28] No space left on device",
       [("doc.pdf", [(0 : Nat), 1])]) := by
  constructor
  · decide
  · decide

/-- C5, amended: on a readable PDF, an out-of-range `page_number` (below 1
or above the page count) yields the error message naming the valid range
`1-<count>` and leaves the file system unchanged whatever the write
channel holds, and an in-range `page_number` whose output write completes
stores exactly the single 1-based page `page_number` at `output_path` and
returns the success message. -/
theorem C5_extract_page (P : Type) (fs : FS (List P))
    (file_path output_path : String) (page_number : Int) (pages : List P)
    (pg : P) (wr : Except String Unit)
    (hget : fsGet fs file_path = some pages) :
    ((page_number < 1 ∨ (pages.length : Int) < page_number) →
      PDF.extract_pdf_page true fs file_path page_number output_path wr =
        (.plain ("Error: Page number " ++ toString page_number ++
                  " out of range (1-" ++ toString pages.length ++ ")"), fs)) ∧
    (1 ≤ page_number → page_number ≤ (pages.length : Int) →
      pages.get? (page_number - 1).toNat = some pg →
      PDF.extract_pdf_page true fs file_path page_number output_path (.ok ()) =
        (.plain ("Page " ++ toString page_number ++
                  " extracted successfully to: " ++ output_path),
         fsSet fs output_path [pg])) := by
  constructor
  · intro hrange
    have hcond : (decide (page_number < 1) ||
        decide ((pages.length : Int) < page_number)) = true := by
      rcases hrange with h | h <;> simp [h]
    simp [PDF.extract_pdf_page, hget, hcond]
  · intro h1 h2 hpg
    have hcond : (decide (page_number < 1) ||
        decide ((pages.length : Int) < page_number)) = false := by
      simp only [Bool.or_eq_false_iff, decide_eq_false_iff_not, not_lt]
      exact ⟨h1, h2⟩
    have hpg2 : pages[page_number.toNat - 1]? = some pg := by
      simpa using hpg
    simp [PDF.extract_pdf_page, hget, hcond, hpg2]

/-- C5 witness: extracting page 2 of a concrete 2-page PDF writes exactly
that page and reports success. -/
theorem C5_extract_page_witness :
    PDF.extract_pdf_page true [("doc.pdf", [(10 : Nat), 20])] "doc.pdf" 2
        "out.pdf" (.ok ()) =
      (.plain ("Page " ++ toString (2 : Int) ++
                " extracted successfully to: " ++ "out.pdf"),
       fsSet [("doc.pdf", [(10 : Nat), 20])] "out.pdf" [20]) :=
  (C5_extract_page Nat [("doc.pdf", [10, 20])] "doc.pdf" "out.pdf" 2
      [10, 20] 20 (.ok ()) (by decide)).2 (by decide) (by decide) (by decide)

/-- C1: across the embedded tool functions, every exception raised by the
wrapped library call is caught inside the function and mapped to an error
payload — a plain string carrying the exception text for the
`agenttools` wrappers, or a JSON object whose `error` key carries it for
the `Tools` and Excel wrappers — and no embedded function propagates a
failure: each returns a `ToolRet` on every channel outcome (totality is by
construction of the embedding, whose exception channels are ordinary
values). -/
theorem C1_exceptions_mapped {P F : Type} (pf : String → Option F)
    (pi : String → Option Int) (pfs : F → String)
    (e command column value output_path url path cell content text
      file_path : String)
    (max_rows max_bytes timeout_sec page_number table_index row col : Int)
    (sheet_name cwd : Option String)
    (fscsv : FS CSV.Csv) (fsstr : FS String) (fslines : FS (List String))
    (fspdf : FS (List P)) (fswd : FS Word.WordDoc)
    (fsxl : FS (Excel.Workbook F)) (wr : Except String Unit)
    (hcmd : Shell.denyMatch command = false)
    (hstr : fsGet fsstr path = none)
    (hpdf : fsGet fspdf file_path = none)
    (hwd : fsGet fswd file_path = none)
    (hxl : fsGet fsxl path = none) :
    CSV.read_csv true (.error e) max_rows =
      .plain ("Error reading CSV: " ++ e) ∧
    CSV.filter_csv true (.error e) column value output_path fscsv wr =
      (.plain ("Error filtering CSV: " ++ e), fscsv) ∧
    CSV.sort_csv true (.error e) column output_path true fscsv wr =
      (.plain ("Error sorting CSV: " ++ e), fscsv) ∧
    Shell.run_shell_core command timeout_sec cwd (.error e) =
      .json [("error", .s e)] ∧
    FileIOTools.read_file fsstr path max_bytes =
      (.json [("error", .s (FileIOTools.fnfMsg path)), ("path", .s path)], fsstr) ∧
    FileIOTools.write_file fsstr path content (.error e) =
      (.json [("error", .s e), ("path", .s path)], fsstr) ∧
    PDF.create_pdf true fslines file_path text (.error e) =
      (.plain ("Error creating PDF: " ++ e), fslines) ∧
    PDF.extract_pdf_page true fspdf file_path page_number output_path wr =
      (.plain ("Error extracting page: " ++ PDF.fnfMsg file_path), fspdf) ∧
    Word.set_table_cell true fswd file_path table_index row col text =
      (.plain ("Error setting table cell: " ++ Word.pkgNotFoundMsg file_path),
       fswd) ∧
    Excel.write_cell pf pi pfs true (.error e) fsxl path cell value sheet_name =
      (.json [("error", .s e), ("path", .s path)], fsxl) ∧
    Excel.read_cell pfs true fsxl path cell sheet_name =
      (.json [("error", .s (Excel.fnfMsg path)), ("path", .s path)], fsxl) ∧
    Web.fetch_webpage true (.error e) url =
      .plain ("Error fetching webpage: " ++ e) := by
  refine ⟨rfl, rfl, rfl, ?_, ?_, rfl, rfl, ?_, ?_, rfl, ?_, rfl⟩
  · simp [Shell.run_shell_core, hcmd]
  · simp [FileIOTools.read_file, hstr]
  · simp [PDF.extract_pdf_page, hpdf]
  · simp [Word.set_table_cell, hwd]
  · simp [Excel.read_cell, hxl]

/-- C1 witness: the subprocess-exception conjunct at a concrete non-denied
command, with all channels instantiated. -/
theorem C1_exceptions_mapped_witness :
    Shell.run_shell_core "echo hi" 600 none (.error "boom") =
      .json [("error", .s "boom")] :=
  (C1_exceptions_mapped (P := Nat) (F := Unit) (fun _ => none) (fun _ => none)
      (fun _ => "0.0") "boom" "echo hi" "col" "val" "out.csv" "http://x" "a.txt"
      "A1" "body" "line" "doc.bin" 100 500000 600 1 0 0 0 none none [] [] []
      [] [] [] (.ok ()) (by decide) rfl rfl rfl rfl).2.2.2.1

/-- C9, counterexample to the claim as stated: on a document with one
1x1 table, `table_index = -5` passes the only validation performed
(`table_index >= len(doc.tables)` is false for every negative index), but
the subsequent subscript `doc.tables[-5]` raises `IndexError`, so the
function returns the generic error message instead of succeeding — a
negative index beyond the table count does not modify anything. -/
theorem C9_cex_too_negative :
    ¬ ((1 : Int) ≤ (-5 : Int)) ∧
    Word.set_table_cell true [("d.docx", [⟨1, [["x"]]⟩])] "d.docx" (-5) 0 0
        "hi" =
      (.plain Word.indexErrorMsg, [("d.docx", [⟨1, [["x"]]⟩])]) := by
  constructor
  · decide
  · decide

/-- C9, amended: the explicit validation of `set_table_cell` only tests
upper bounds, so every negative `table_index`, `row` and `col` passes it;
when each index is within magnitude (Python semantics, `pyIndex`), the
function modifies the table, row and cell counted from the end and reports
success.  A negative index beyond the magnitude instead raises
`IndexError` inside the broad handler: with the list message for the table
and row subscripts (see the counterexample) and, as the second conjunct
proves, with the tuple message for the column subscript, since `row.cells`
is a tuple in python-docx.  The final conjunct states the
counting-from-the-end resolution of negative indices. -/
theorem C9_negative_index (fs : FS Word.WordDoc) (file_path text : String)
    (doc : Word.WordDoc) (table_index row col : Int) (table : Word.WTable)
    (ti ri ci : Nat) (cells : List String)
    (hdoc : fsGet fs file_path = some doc)
    (hT : Word.pyIndex doc table_index = some (ti, table))
    (hR : Word.pyIndex table.grid row = some (ri, cells))
    (hC : Word.pyIdx cells.length col = some ci)
    (hnc : cells.length = table.ncols) :
    Word.set_table_cell true fs file_path table_index row col text =
      (.plain ("Cell (" ++ toString row ++ ", " ++ toString col ++
                ") updated successfully in table " ++ toString table_index),
       fsSet fs file_path
         (doc.set ti
           { table with grid := table.grid.set ri (cells.set ci text) })) ∧
    (∀ col2 : Int, col2 < 0 → cells.length < col2.natAbs →
      Word.set_table_cell true fs file_path table_index row col2 text =
        (.plain Word.tupleIndexErrorMsg, fs)) ∧
    (∀ (n : Nat) (i : Int), i < 0 → i.natAbs ≤ n →
      Word.pyIdx n i = some (n - i.natAbs)) := by
  have hTi : Word.pyIdx doc.length table_index = some ti :=
    (Word.pyIndex_eq hT).1
  have hv1 : ¬ ((doc.length : Int) ≤ table_index) :=
    not_le_of_lt (Word.pyIdx_some_lt hTi)
  have hRi : Word.pyIdx table.grid.length row = some ri :=
    (Word.pyIndex_eq hR).1
  refine ⟨?_, ?_, ?_⟩
  · have hv2 : ¬ ((table.grid.length : Int) ≤ row ∨ (table.ncols : Int) ≤ col) := by
      rintro (h | h)
      · exact not_le_of_lt (Word.pyIdx_some_lt hRi) h
      · rw [← hnc] at h
        exact not_le_of_lt (Word.pyIdx_some_lt hC) h
    simp [Word.set_table_cell, hdoc, hv1, hv2, hT, hR, hC]
  · intro col2 hneg hmag
    have hv2 : ¬ ((table.grid.length : Int) ≤ row ∨ (table.ncols : Int) ≤ col2) := by
      rintro (h | h)
      · exact not_le_of_lt (Word.pyIdx_some_lt hRi) h
      · exact not_le_of_lt
          (lt_of_lt_of_le hneg (Int.ofNat_nonneg table.ncols)) h
    have hCfail : Word.pyIdx cells.length col2 = none := by
      have h0 : ¬ (0 ≤ col2) := not_le_of_lt hneg
      have h1 : ¬ (col2.natAbs ≤ cells.length) := not_le_of_lt hmag
      simp [Word.pyIdx, h0, h1]
    simp [Word.set_table_cell, hdoc, hv1, hv2, hT, hR, hCfail]
  · intro n i hneg hmag
    exact Word.pyIdx_neg hneg hmag

/-- C9 witness: `table_index = row = col = -1` on a two-table document
modifies the last cell of the last row of the last table and reports
success. -/
theorem C9_negative_index_witness :
    Word.set_table_cell true
        [("d.docx", [⟨2, [["a", "b"], ["c", "d"]]⟩, ⟨1, [["z"]]⟩])] "d.docx"
        (-1) (-1) (-1) "w" =
      (.plain ("Cell (" ++ toString (-1 : Int) ++ ", " ++ toString (-1 : Int) ++
                ") updated successfully in table " ++ toString (-1 : Int)),
       fsSet [("d.docx", [⟨2, [["a", "b"], ["c", "d"]]⟩, ⟨1, [["z"]]⟩])]
         "d.docx"
         ([⟨2, [["a", "b"], ["c", "d"]]⟩, ⟨1, [["z"]]⟩].set 1
           { Word.WTable.mk 1 [["z"]] with
               grid := [["z"]].set 0 (["z"].set 0 "w") })) :=
  (C9_negative_index
      [("d.docx", [⟨2, [["a", "b"], ["c", "d"]]⟩, ⟨1, [["z"]]⟩])] "d.docx" "w"
      [⟨2, [["a", "b"], ["c", "d"]]⟩, ⟨1, [["z"]]⟩] (-1) (-1) (-1)
      ⟨1, [["z"]]⟩ 1 0 0 ["z"] (by decide) (by decide) (by decide) (by decide)
      (by decide)).1

/-- C8: `write_cell` converts a string value exactly as the claim states:
with a dot present, a successful `float` parse is stored and reported;
with no dot, a successful `int` parse is stored and reported; a failed
parse (of the one applicable conversion) stores the original string
unchanged.  The first two conjuncts tie the conversion to the function:
the returned JSON's `value` field is `str` of the converted value and the
stored cell holds the converted value itself. -/
theorem C8_numeric_conversion {F : Type} (pf : String → Option F)
    (pi : String → Option Int) (pfs : F → String)
    (fs : FS (Excel.Workbook F)) (path cell value sn : String) :
    retLookup (Excel.write_cell pf pi pfs true (.ok ()) fs path cell value
        (some sn)).1 "value" =
      some (.s ((Excel.pyNumConvert pf pi value).pyStr pfs)) ∧
    Excel.cellAt (Excel.write_cell pf pi pfs true (.ok ()) fs path cell value
        (some sn)).2 path sn cell =
      some (Excel.pyNumConvert pf pi value) ∧
    (∀ x : F, value.data.contains (Char.ofNat 46) = true → pf value = some x →
      Excel.pyNumConvert pf pi value = .f x) ∧
    (∀ n : Int, value.data.contains (Char.ofNat 46) = false →
      pi value = some n → Excel.pyNumConvert pf pi value = .i n) ∧
    (value.data.contains (Char.ofNat 46) = true → pf value = none →
      Excel.pyNumConvert pf pi value = .s value) ∧
    (value.data.contains (Char.ofNat 46) = false → pi value = none →
      Excel.pyNumConvert pf pi value = .s value) := by
  refine ⟨rfl, Excel.write_cell_stores pf pi pfs fs path cell value sn,
    ?_, ?_, ?_, ?_⟩
  · intro x hdot hpf
    simp at hdot
    simp [Excel.pyNumConvert, hdot, hpf]
  · intro n hdot hpi
    simp at hdot
    simp [Excel.pyNumConvert, hdot, hpi]
  · intro hdot hpf
    simp at hdot
    simp [Excel.pyNumConvert, hdot, hpf]
  · intro hdot hpi
    simp at hdot
    simp [Excel.pyNumConvert, hdot, hpi]

/-- C8 witness: `"42"` has no dot and parses as an integer, so the
conversion yields the number 42. -/
theorem C8_numeric_conversion_witness :
    Excel.pyNumConvert (F := String) (fun _ => none) pyIntSimple "42" =
      .i 42 :=
  (C8_numeric_conversion (F := String) (fun _ => none) pyIntSimple
      (fun x => x) [] "wb.xlsx" "A1" "42" "Data").2.2.2.1 42 (by decide)
    (by decide)

/-- C3, counterexample to the claim as stated: writing the string `"5"`
stores the converted integer 5 (the numeric-conversion block of
`write_cell`), so reading the cell back returns the JSON number 5, not the
written string `"5"`. -/
theorem C3_cex_numeric_string :
    retLookup (Excel.read_cell (fun x => x) true
        (Excel.write_cell (F := String) (fun _ => none) pyIntSimple
            (fun x => x) true (.ok ()) [] "wb.xlsx" "A1" "5" (some "Data")).2
        "wb.xlsx" "A1" (some "Data")).1 "value" = some (.i 5) ∧
    JVal.i 5 ≠ JVal.s "5" := by
  constructor
  · decide
  · decide

/-- C3, amended: writing then reading the same path, sheet and cell
returns the value produced by `write_cell`'s numeric conversion; in
particular, for every value string that the conversion leaves unchanged
(it parses as neither number under the applicable branch), the round trip
returns exactly the written string.  Numeric strings come back as the
converted number (see the counterexample). -/
theorem C3_roundtrip (F : Type) (pf : String → Option F)
    (pi : String → Option Int) (pfs : F → String)
    (fs : FS (Excel.Workbook F)) (path cell value sn : String)
    (hconv : Excel.pyNumConvert pf pi value = .s value) :
    retLookup (Excel.read_cell pfs true
        (Excel.write_cell pf pi pfs true (.ok ()) fs path cell value
          (some sn)).2 path cell (some sn)).1 "value" =
      some (.s value) := by
  have h := Excel.read_after_write pf pi pfs fs path cell value sn
  rw [hconv] at h
  exact h

/-- C3 witness: the non-numeric string `"hello"` survives the round trip
unchanged. -/
theorem C3_roundtrip_witness :
    retLookup (Excel.read_cell (fun x => x) true
        (Excel.write_cell (F := String) (fun _ => none) pyIntSimple
            (fun x => x) true (.ok ()) [] "wb.xlsx" "B2" "hello"
            (some "Data")).2 "wb.xlsx" "B2" (some "Data")).1 "value" =
      some (.s "hello") :=
  C3_roundtrip String (fun _ => none) pyIntSimple (fun x => x) [] "wb.xlsx"
    "B2" "hello" "Data" (by decide)
